import Mathlib

/-!
Verification of the virtual-slider gesture/value state machine from
`src/elements/virtual_slider.rs` (struct `VirtualSliderInner` and the pure
quantization helpers `param_quantized_to_normal`, `param_normal_to_quantized`,
`param_snap_normal`).

Floating-point (`f32`/`f64`) arithmetic in the source is modelled exactly over
`ℚ`: the operations involved (addition, multiplication, division, clamping,
comparison, rounding) are translated to their exact rational counterparts.
-/

/-- Modifier-key bitset, modelling `keyboard_types::Modifiers` (an external
crate dependency): a flags bitset with one bit per modifier key, compared
for exact equality with `==` in the source. -/
abbrev Modifiers := Nat

/-- The SHIFT modifier bit of the `keyboard_types::Modifiers` bitset. -/
def Modifiers.SHIFT : Modifiers := 1

/-- The CONTROL modifier bit of the `keyboard_types::Modifiers` bitset. -/
def Modifiers.CONTROL : Modifiers := 2

/-- A 2-D point, modelling `rootvg::math::Point` (external crate): `x`/`y`
coordinates in logical points. -/
structure Point where
  x : ℚ
  y : ℚ
deriving DecidableEq

/-- A 2-D vector, modelling `rootvg::math::Vector` (external crate).
`Vector::default()` is the zero vector. -/
structure Vector2 where
  x : ℚ
  y : ℚ
deriving DecidableEq

/-- Modelled from the spec: `WheelDeltaType` from `crate::event` (this
repository's event module, whose source file is not under `src/`) — a
scroll-wheel delta tagged as points, lines, or pages, each carrying a 2-D
vector, as described in spec §6 ("scroll-delta tagged as points/lines/pages")
and matched on in `VirtualSliderInner::handle_scroll_wheel`. -/
inductive WheelDeltaType where
  | Points (v : Vector2)
  | Lines (v : Vector2)
  | Pages (v : Vector2)
deriving DecidableEq

/-- Embedding of `GestureState` (virtual_slider.rs lines 18-26). -/
inductive GestureState where
  | GestureStarted
  | Gesturing
  | GestureFinished
deriving DecidableEq

/-- Embedding of `ParamUpdate` (virtual_slider.rs lines 28-38). -/
structure ParamUpdate where
  param_id : Nat
  normal_value : ℚ
  stepped_value : Option Nat
  gesture_state : GestureState
deriving DecidableEq

/-- Embedding of `VirtualSliderConfig` (virtual_slider.rs lines 52-100). -/
structure VirtualSliderConfig where
  drag_scalar : ℚ
  scroll_wheel_scalar : ℚ
  scroll_wheel_points_per_line : ℚ
  fine_adjustment_scalar : ℚ
  use_scroll_wheel : Bool
  fine_adjustment_modifier : Option Modifiers
  open_text_entry_modifier : Option Modifiers
  open_text_entry_on_middle_click : Bool
  disable_pointer_locking : Bool
deriving DecidableEq

/-- Embedding of `BeginGestureType` (virtual_slider.rs lines 118-125). -/
inductive BeginGestureType where
  | Dragging (pointer_start_pos : Point) (start_normal : ℚ)
  | ScrollWheel
deriving DecidableEq

/-- Embedding of `SteppedParamState` (virtual_slider.rs lines 127-131). -/
structure SteppedParamState where
  value : Nat
  num_steps : Nat
deriving DecidableEq

/-- Embedding of the state of `VirtualSliderInner`
(virtual_slider.rs lines 135-146). -/
structure VirtualSliderInner where
  param_id : Nat
  config : VirtualSliderConfig
  drag_vertically : Bool
  scroll_vertically : Bool
  normal_value : ℚ
  default_normal : ℚ
  continuous_gesture_normal : ℚ
  stepped_state : Option SteppedParamState
  current_gesture : Option BeginGestureType
deriving DecidableEq

/-- Rust's `f64::clamp(0.0, 1.0)` over ℚ. -/
def clamp01 (x : ℚ) : ℚ := max 0 (min x 1)

/-- Rust's `f64::round` over ℚ: round to the nearest integer, ties away
from zero. -/
def roundHalfAway (x : ℚ) : ℤ :=
  if 0 ≤ x then ⌊x + 1 / 2⌋ else ⌈x - 1 / 2⌉

/-- Embedding of `param_quantized_to_normal` (virtual_slider.rs
lines 474-482). -/
def param_quantized_to_normal (value : Nat) (num_steps : Nat) : ℚ :=
  if value = 0 ∨ num_steps = 0 then 0
  else if num_steps ≤ value then 1
  else (value : ℚ) / (num_steps : ℚ)

/-- Embedding of `param_normal_to_quantized` (virtual_slider.rs
lines 484-492). The `as u32` cast is `Int.toNat`; the rounded value is
nonnegative in this branch, so no saturation occurs. -/
def param_normal_to_quantized (normal : ℚ) (num_steps : Nat) : Nat :=
  if normal ≤ 0 ∨ num_steps = 0 then 0
  else if 1 ≤ normal then num_steps
  else (roundHalfAway (normal * (num_steps : ℚ))).toNat

/-- Embedding of `param_snap_normal` (virtual_slider.rs lines 494-496). -/
def param_snap_normal (normal : ℚ) (num_steps : Nat) : ℚ :=
  param_quantized_to_normal (param_normal_to_quantized normal num_steps) num_steps

/-- Embedding of `VirtualSliderInner::new` (virtual_slider.rs lines 149-189). -/
def VirtualSliderInner.new (param_id : Nat) (normal_value default_normal : ℚ)
    (num_quantized_steps : Option Nat) (config : VirtualSliderConfig)
    (drag_vertically scroll_vertically : Bool) : VirtualSliderInner :=
  match num_quantized_steps with
  | some num_steps =>
    let stepped_value := param_normal_to_quantized normal_value num_steps
    { param_id := param_id
      config := config
      drag_vertically := drag_vertically
      scroll_vertically := scroll_vertically
      normal_value := param_quantized_to_normal stepped_value num_steps
      default_normal := param_snap_normal default_normal num_steps
      continuous_gesture_normal := param_quantized_to_normal stepped_value num_steps
      stepped_state := some { value := stepped_value, num_steps := num_steps }
      current_gesture := none }
  | none =>
    { param_id := param_id
      config := config
      drag_vertically := drag_vertically
      scroll_vertically := scroll_vertically
      normal_value := clamp01 normal_value
      default_normal := clamp01 default_normal
      continuous_gesture_normal := clamp01 normal_value
      stepped_state := none
      current_gesture := none }

/-- Embedding of `VirtualSliderInner::stepped_value` (virtual_slider.rs
lines 407-409). -/
def VirtualSliderInner.stepped_value (s : VirtualSliderInner) : Option Nat :=
  s.stepped_state.map fun st => st.value

/-- Embedding of `VirtualSliderInner::num_quantized_steps` (virtual_slider.rs
lines 411-413). -/
def VirtualSliderInner.num_quantized_steps (s : VirtualSliderInner) : Option Nat :=
  s.stepped_state.map fun st => st.num_steps

/-- Embedding of `VirtualSliderInner::snap_normal` (virtual_slider.rs
lines 457-463). -/
def VirtualSliderInner.snap_normal (s : VirtualSliderInner) (normal : ℚ) : ℚ :=
  match s.stepped_state with
  | some stepped_state => param_snap_normal normal stepped_state.num_steps
  | none => clamp01 normal

/-- Embedding of `VirtualSliderInner::begin_drag_gesture` (virtual_slider.rs
lines 191-207). Returns the optional `ParamUpdate` together with the
post-state. -/
def VirtualSliderInner.begin_drag_gesture (s : VirtualSliderInner)
    (pointer_start_pos : Point) : Option ParamUpdate × VirtualSliderInner :=
  match s.current_gesture with
  | some _ => (none, s)
  | none =>
    (some { param_id := s.param_id
            normal_value := s.normal_value
            stepped_value := s.stepped_value
            gesture_state := GestureState.GestureStarted },
     { s with current_gesture := some (BeginGestureType.Dragging pointer_start_pos s.normal_value) })

/-- Embedding of `VirtualSliderInner::begin_scroll_wheel_gesture`
(virtual_slider.rs lines 209-222). -/
def VirtualSliderInner.begin_scroll_wheel_gesture (s : VirtualSliderInner) :
    Option ParamUpdate × VirtualSliderInner :=
  match s.current_gesture with
  | some _ => (none, s)
  | none =>
    (some { param_id := s.param_id
            normal_value := s.normal_value
            stepped_value := s.stepped_value
            gesture_state := GestureState.GestureStarted },
     { s with current_gesture := some BeginGestureType.ScrollWheel })

/-- Embedding of `VirtualSliderInner::set_new_gesture_normal`
(virtual_slider.rs lines 342-372). In the stepped branch the source updates
`stepped_state.value` but leaves the `normal_value` field untouched. -/
def VirtualSliderInner.set_new_gesture_normal (s : VirtualSliderInner)
    (new_gesture_normal : ℚ) : Option ParamUpdate × VirtualSliderInner :=
  let g := clamp01 new_gesture_normal
  if g = s.continuous_gesture_normal then (none, s)
  else
    match s.stepped_state with
    | some stepped_state =>
      let new_val := param_normal_to_quantized g stepped_state.num_steps
      let s2 : VirtualSliderInner :=
        { s with continuous_gesture_normal := g
                 stepped_state := some { stepped_state with value := new_val } }
      if stepped_state.value = new_val then (none, s2)
      else
        (some { param_id := s2.param_id
                normal_value := s2.normal_value
                stepped_value := s2.stepped_value
                gesture_state := GestureState.Gesturing }, s2)
    | none =>
      let s2 : VirtualSliderInner :=
        { s with continuous_gesture_normal := g, normal_value := g }
      if s.normal_value = g then (none, s2)
      else
        (some { param_id := s2.param_id
                normal_value := s2.normal_value
                stepped_value := s2.stepped_value
                gesture_state := GestureState.Gesturing }, s2)

/-- The fine-adjustment guard computed identically at the start of both
`handle_drag` (virtual_slider.rs lines 237-242) and `handle_scroll_wheel`
(virtual_slider.rs lines 309-313): the fine-adjustment scalar applies exactly
when a fine-adjustment modifier is configured and the incoming modifier
bitset equals it. -/
def fineGuard (config : VirtualSliderConfig) (modifiers : Modifiers) : Bool :=
  match config.fine_adjustment_modifier with
  | some m => modifiers == m
  | none => false

/-- Embedding of `VirtualSliderInner::handle_drag` (virtual_slider.rs
lines 224-298). The source's `pointer_delta.unwrap()` is guarded by
`pointer_delta.is_some()`, so `Option.getD` with a dummy default is exact. -/
def VirtualSliderInner.handle_drag (s : VirtualSliderInner) (pointer_pos : Point)
    (pointer_delta : Option Point) (modifiers : Modifiers) :
    Option ParamUpdate × VirtualSliderInner :=
  match s.current_gesture with
  | some (BeginGestureType.Dragging pointer_start_pos start_normal) =>
    let use_pointer_delta := !s.config.disable_pointer_locking && pointer_delta.isSome
    let apply_fine_adjustment_scalar := fineGuard s.config modifiers
    let step1 : ℚ × Bool :=
      if use_pointer_delta then
        let delta := pointer_delta.getD { x := 0, y := 0 }
        let delta_points := if s.drag_vertically then delta.y else delta.x
        let delta_normal0 := delta_points * s.config.drag_scalar
        let delta_normal :=
          if apply_fine_adjustment_scalar then
            delta_normal0 * s.config.fine_adjustment_scalar
          else delta_normal0
        (s.continuous_gesture_normal + delta_normal, true)
      else if apply_fine_adjustment_scalar then
        let delta_points :=
          if s.drag_vertically then pointer_pos.y - pointer_start_pos.y
          else pointer_pos.x - pointer_start_pos.x
        let delta_normal :=
          delta_points * s.config.drag_scalar * s.config.fine_adjustment_scalar
        (s.continuous_gesture_normal + delta_normal, true)
      else
        let offset :=
          if s.drag_vertically then pointer_pos.y - pointer_start_pos.y
          else pointer_pos.x - pointer_start_pos.x
        (start_normal + offset * s.config.drag_scalar, false)
    let s2 : VirtualSliderInner :=
      if step1.2 then
        { s with current_gesture := some (BeginGestureType.Dragging pointer_pos s.continuous_gesture_normal) }
      else s
    s2.set_new_gesture_normal step1.1
  | _ => (none, s)

/-- Embedding of `VirtualSliderInner::handle_scroll_wheel` (virtual_slider.rs
lines 300-340). -/
def VirtualSliderInner.handle_scroll_wheel (s : VirtualSliderInner)
    (delta_type : WheelDeltaType) (modifiers : Modifiers) :
    Option ParamUpdate × VirtualSliderInner :=
  if !s.config.use_scroll_wheel then (none, s)
  else
    let apply_fine_adjustment_scalar := fineGuard s.config modifiers
    let delta : Vector2 :=
      match delta_type with
      | WheelDeltaType.Points points => points
      | WheelDeltaType.Lines lines =>
        { x := lines.x * s.config.scroll_wheel_points_per_line
          y := lines.y * s.config.scroll_wheel_points_per_line }
      | WheelDeltaType.Pages _ => { x := 0, y := 0 }
    let delta_points := if s.drag_vertically then delta.y else delta.x
    if delta_points = 0 then (none, s)
    else
      let delta_normal0 := delta_points * s.config.drag_scalar
      let delta_normal :=
        if apply_fine_adjustment_scalar then
          delta_normal0 * s.config.fine_adjustment_scalar
        else delta_normal0
      s.set_new_gesture_normal (s.continuous_gesture_normal + delta_normal)

/-- Embedding of `VirtualSliderInner::finish_gesture` (virtual_slider.rs
lines 374-381). -/
def VirtualSliderInner.finish_gesture (s : VirtualSliderInner) :
    Option ParamUpdate × VirtualSliderInner :=
  match s.current_gesture with
  | some _ =>
    (some { param_id := s.param_id
            normal_value := s.normal_value
            stepped_value := s.stepped_value
            gesture_state := GestureState.GestureFinished },
     { s with current_gesture := none })
  | none => (none, s)

/-- Embedding of `VirtualSliderInner::reset_to_default` (virtual_slider.rs
lines 383-405). Note that the source leaves `continuous_gesture_normal` and
any `stepped_state.value` untouched. -/
def VirtualSliderInner.reset_to_default (s : VirtualSliderInner) :
    Option ParamUpdate × VirtualSliderInner :=
  match s.current_gesture with
  | some _ =>
    let s2 : VirtualSliderInner :=
      { s with current_gesture := none, normal_value := s.default_normal }
    (some { param_id := s2.param_id
            normal_value := s2.normal_value
            stepped_value := s2.stepped_value
            gesture_state := GestureState.GestureFinished }, s2)
  | none =>
    if s.normal_value ≠ s.default_normal then
      let s2 : VirtualSliderInner := { s with normal_value := s.default_normal }
      (some { param_id := s2.param_id
              normal_value := s2.normal_value
              stepped_value := s2.stepped_value
              gesture_state := GestureState.GestureFinished }, s2)
    else (none, s)

/-- Embedding of `VirtualSliderInner::set_normal_value` (virtual_slider.rs
lines 419-444). -/
def VirtualSliderInner.set_normal_value (s : VirtualSliderInner)
    (new_normal : ℚ) : Option ParamUpdate × VirtualSliderInner :=
  let snapped : ℚ × Option SteppedParamState :=
    match s.stepped_state with
    | some stepped_state =>
      let v := param_normal_to_quantized new_normal stepped_state.num_steps
      (param_quantized_to_normal v stepped_state.num_steps,
       some { stepped_state with value := v })
    | none => (clamp01 new_normal, none)
  let state_changed := s.current_gesture.isSome || decide (s.normal_value ≠ snapped.1)
  let s2 : VirtualSliderInner :=
    { s with normal_value := snapped.1
             continuous_gesture_normal := snapped.1
             stepped_state := snapped.2
             current_gesture := none }
  (if state_changed then
    some { param_id := s2.param_id
           normal_value := s2.normal_value
           stepped_value := s2.stepped_value
           gesture_state := GestureState.GestureFinished }
  else none, s2)

/-- Embedding of `VirtualSliderInner::set_default_normal` (virtual_slider.rs
lines 449-455). -/
def VirtualSliderInner.set_default_normal (s : VirtualSliderInner)
    (new_normal : ℚ) : Bool × VirtualSliderInner :=
  let n := s.snap_normal new_normal
  (decide (s.default_normal ≠ n), { s with default_normal := n })

/-- One public mutating operation of `VirtualSliderInner`, for stating
whole-trace invariants. -/
inductive SliderOp where
  | beginDrag (pointer_start_pos : Point)
  | beginScrollWheel
  | drag (pointer_pos : Point) (pointer_delta : Option Point) (modifiers : Modifiers)
  | scrollWheel (delta_type : WheelDeltaType) (modifiers : Modifiers)
  | finish
  | resetToDefault
  | setNormalValue (new_normal : ℚ)
  | setDefaultNormal (new_normal : ℚ)

/-- Apply one public operation, keeping the post-state and discarding the
notification. -/
def applyOp (s : VirtualSliderInner) (op : SliderOp) : VirtualSliderInner :=
  match op with
  | SliderOp.beginDrag p => (s.begin_drag_gesture p).2
  | SliderOp.beginScrollWheel => (s.begin_scroll_wheel_gesture).2
  | SliderOp.drag p pd m => (s.handle_drag p pd m).2
  | SliderOp.scrollWheel d m => (s.handle_scroll_wheel d m).2
  | SliderOp.finish => (s.finish_gesture).2
  | SliderOp.resetToDefault => (s.reset_to_default).2
  | SliderOp.setNormalValue v => (s.set_normal_value v).2
  | SliderOp.setDefaultNormal v => (s.set_default_normal v).2

lemma clamp01_nonneg (x : ℚ) : 0 ≤ clamp01 x := le_max_left 0 _

lemma clamp01_le_one (x : ℚ) : clamp01 x ≤ 1 :=
  max_le (by norm_num) (min_le_right x 1)

lemma param_quantized_to_normal_nonneg (v n : Nat) :
    0 ≤ param_quantized_to_normal v n := by
  unfold param_quantized_to_normal
  split_ifs with h1 h2
  · exact le_refl 0
  · norm_num
  · positivity

lemma param_quantized_to_normal_le_one (v n : Nat) :
    param_quantized_to_normal v n ≤ 1 := by
  unfold param_quantized_to_normal
  split_ifs with h1 h2
  · norm_num
  · exact le_refl 1
  · push_neg at h1 h2
    have hn : 0 < (n : ℚ) := by exact_mod_cast Nat.pos_of_ne_zero h1.2
    rw [div_le_one hn]
    exact_mod_cast le_of_lt h2

lemma param_snap_normal_nonneg (v : ℚ) (n : Nat) : 0 ≤ param_snap_normal v n :=
  param_quantized_to_normal_nonneg _ _

lemma param_snap_normal_le_one (v : ℚ) (n : Nat) : param_snap_normal v n ≤ 1 :=
  param_quantized_to_normal_le_one _ _

lemma roundHalfAway_natCast (k : Nat) : roundHalfAway (k : ℚ) = (k : ℤ) := by
  unfold roundHalfAway
  rw [if_pos (by positivity)]
  rw [Int.floor_eq_iff]
  constructor
  · push_cast; linarith
  · push_cast; linarith

lemma param_normal_to_quantized_of_quantized (k n : Nat) :
    param_normal_to_quantized (param_quantized_to_normal k n) n =
      if k = 0 ∨ n = 0 then 0 else if n ≤ k then n else k := by
  unfold param_quantized_to_normal
  by_cases h1 : k = 0 ∨ n = 0
  · rw [if_pos h1, if_pos h1]
    unfold param_normal_to_quantized
    rw [if_pos (Or.inl le_rfl)]
  · rw [if_neg h1, if_neg h1]
    push_neg at h1
    by_cases h2 : n ≤ k
    · rw [if_pos h2, if_pos h2]
      unfold param_normal_to_quantized
      rw [if_neg (by push_neg; exact ⟨by norm_num, h1.2⟩), if_pos le_rfl]
    · rw [if_neg h2, if_neg h2]
      push_neg at h2
      have hk : 0 < (k : ℚ) := by exact_mod_cast Nat.pos_of_ne_zero h1.1
      have hn : 0 < (n : ℚ) := by exact_mod_cast Nat.pos_of_ne_zero h1.2
      have hlt : (k : ℚ) / n < 1 := by
        rw [div_lt_one hn]; exact_mod_cast h2
      unfold param_normal_to_quantized
      rw [if_neg (by push_neg; exact ⟨by positivity, h1.2⟩)]
      rw [if_neg (by push_neg; exact hlt)]
      rw [div_mul_cancel₀ _ (ne_of_gt hn), roundHalfAway_natCast]
      exact Int.toNat_natCast k

/-- The range invariant maintained by every public operation: the committed
normal value and the default normal both lie in `[0, 1]`. -/
def RangeInv (s : VirtualSliderInner) : Prop :=
  0 ≤ s.normal_value ∧ s.normal_value ≤ 1 ∧
    0 ≤ s.default_normal ∧ s.default_normal ≤ 1

lemma snap_normal_nonneg (s : VirtualSliderInner) (v : ℚ) :
    0 ≤ s.snap_normal v := by
  unfold VirtualSliderInner.snap_normal
  cases s.stepped_state
  · exact clamp01_nonneg v
  · exact param_snap_normal_nonneg _ _

lemma snap_normal_le_one (s : VirtualSliderInner) (v : ℚ) :
    s.snap_normal v ≤ 1 := by
  unfold VirtualSliderInner.snap_normal
  cases s.stepped_state
  · exact clamp01_le_one v
  · exact param_snap_normal_le_one _ _

lemma set_new_gesture_normal_inv (s : VirtualSliderInner) (g : ℚ)
    (h : RangeInv s) : RangeInv (s.set_new_gesture_normal g).2 := by
  unfold VirtualSliderInner.set_new_gesture_normal
  dsimp only
  split
  · exact h
  · split
    · split
      · exact h
      · exact h
    · split
      · exact ⟨clamp01_nonneg g, clamp01_le_one g, h.2.2.1, h.2.2.2⟩
      · exact ⟨clamp01_nonneg g, clamp01_le_one g, h.2.2.1, h.2.2.2⟩

lemma begin_drag_gesture_inv (s : VirtualSliderInner) (p : Point)
    (h : RangeInv s) : RangeInv (s.begin_drag_gesture p).2 := by
  unfold VirtualSliderInner.begin_drag_gesture
  split
  · exact h
  · exact h

lemma begin_scroll_wheel_gesture_inv (s : VirtualSliderInner)
    (h : RangeInv s) : RangeInv (s.begin_scroll_wheel_gesture).2 := by
  unfold VirtualSliderInner.begin_scroll_wheel_gesture
  split
  · exact h
  · exact h

lemma RangeInv_ite (c : Prop) [Decidable c] (a b : VirtualSliderInner)
    (ha : RangeInv a) (hb : RangeInv b) : RangeInv (if c then a else b) := by
  split
  · exact ha
  · exact hb

lemma handle_drag_inv (s : VirtualSliderInner) (p : Point) (pd : Option Point)
    (m : Modifiers) (h : RangeInv s) : RangeInv (s.handle_drag p pd m).2 := by
  unfold VirtualSliderInner.handle_drag
  dsimp only
  split
  · exact set_new_gesture_normal_inv _ _ (RangeInv_ite _ _ _ h h)
  all_goals exact h

lemma handle_scroll_wheel_inv (s : VirtualSliderInner) (d : WheelDeltaType)
    (m : Modifiers) (h : RangeInv s) : RangeInv (s.handle_scroll_wheel d m).2 := by
  unfold VirtualSliderInner.handle_scroll_wheel
  dsimp only
  cases d
  all_goals
    dsimp only
    split_ifs
    all_goals first
    | exact h
    | exact set_new_gesture_normal_inv _ _ h

lemma finish_gesture_inv (s : VirtualSliderInner)
    (h : RangeInv s) : RangeInv (s.finish_gesture).2 := by
  unfold VirtualSliderInner.finish_gesture
  split
  · exact h
  · exact h

lemma reset_to_default_inv (s : VirtualSliderInner)
    (h : RangeInv s) : RangeInv (s.reset_to_default).2 := by
  unfold VirtualSliderInner.reset_to_default
  dsimp only
  split
  · exact ⟨h.2.2.1, h.2.2.2, h.2.2.1, h.2.2.2⟩
  · split
    · exact ⟨h.2.2.1, h.2.2.2, h.2.2.1, h.2.2.2⟩
    · exact h

lemma set_normal_value_inv (s : VirtualSliderInner) (v : ℚ)
    (h : RangeInv s) : RangeInv (s.set_normal_value v).2 := by
  unfold VirtualSliderInner.set_normal_value
  dsimp only
  cases hss : s.stepped_state with
  | some st =>
    exact ⟨param_quantized_to_normal_nonneg _ _,
      param_quantized_to_normal_le_one _ _, h.2.2.1, h.2.2.2⟩
  | none =>
    exact ⟨clamp01_nonneg v, clamp01_le_one v, h.2.2.1, h.2.2.2⟩

lemma set_default_normal_inv (s : VirtualSliderInner) (v : ℚ)
    (h : RangeInv s) : RangeInv (s.set_default_normal v).2 :=
  ⟨h.1, h.2.1, snap_normal_nonneg s v, snap_normal_le_one s v⟩

lemma applyOp_inv (s : VirtualSliderInner) (op : SliderOp)
    (h : RangeInv s) : RangeInv (applyOp s op) := by
  cases op with
  | beginDrag p => exact begin_drag_gesture_inv s p h
  | beginScrollWheel => exact begin_scroll_wheel_gesture_inv s h
  | drag p pd m => exact handle_drag_inv s p pd m h
  | scrollWheel d m => exact handle_scroll_wheel_inv s d m h
  | finish => exact finish_gesture_inv s h
  | resetToDefault => exact reset_to_default_inv s h
  | setNormalValue v => exact set_normal_value_inv s v h
  | setDefaultNormal v => exact set_default_normal_inv s v h

lemma foldl_applyOp_inv (ops : List SliderOp) (s : VirtualSliderInner)
    (h : RangeInv s) : RangeInv (List.foldl applyOp s ops) := by
  induction ops generalizing s with
  | nil => exact h
  | cons op ops ih => exact ih _ (applyOp_inv s op h)

lemma new_inv (pid : Nat) (nv dn : ℚ) (steps : Option Nat)
    (cfg : VirtualSliderConfig) (dv sv : Bool) :
    RangeInv (VirtualSliderInner.new pid nv dn steps cfg dv sv) := by
  unfold VirtualSliderInner.new
  cases steps
  · exact ⟨clamp01_nonneg nv, clamp01_le_one nv, clamp01_nonneg dn, clamp01_le_one dn⟩
  · exact ⟨param_quantized_to_normal_nonneg _ _, param_quantized_to_normal_le_one _ _,
      param_snap_normal_nonneg _ _, param_snap_normal_le_one _ _⟩

lemma qtn_zero_value (n : Nat) : param_quantized_to_normal 0 n = 0 := by
  unfold param_quantized_to_normal
  rw [if_pos (Or.inl rfl)]

lemma qtn_zero_steps (k : Nat) : param_quantized_to_normal k 0 = 0 := by
  unfold param_quantized_to_normal
  rw [if_pos (Or.inr rfl)]

lemma qtn_of_ge (k n : Nat) (hn : n ≠ 0) (hk : n ≤ k) :
    param_quantized_to_normal k n = 1 := by
  have hk0 : k ≠ 0 := by
    intro h
    exact hn (Nat.le_zero.mp (h ▸ hk))
  unfold param_quantized_to_normal
  rw [if_neg (by push_neg; exact ⟨hk0, hn⟩), if_pos hk]

lemma ntq_of_nonpos (normal : ℚ) (n : Nat) (h : normal ≤ 0) :
    param_normal_to_quantized normal n = 0 := by
  unfold param_normal_to_quantized
  rw [if_pos (Or.inl h)]

lemma ntq_zero_steps (normal : ℚ) : param_normal_to_quantized normal 0 = 0 := by
  unfold param_normal_to_quantized
  rw [if_pos (Or.inr rfl)]

lemma ntq_of_one_le (normal : ℚ) (n : Nat) (h : 1 ≤ normal) :
    param_normal_to_quantized normal n = n := by
  by_cases hn : n = 0
  · rw [hn, ntq_zero_steps]
  · unfold param_normal_to_quantized
    rw [if_neg (by push_neg; exact ⟨by linarith, hn⟩), if_pos h]

lemma ntq_interior (normal : ℚ) (n : Nat) (h0 : 0 < normal) (h1 : normal < 1)
    (hn : n ≠ 0) :
    param_normal_to_quantized normal n = (roundHalfAway (normal * n)).toNat := by
  unfold param_normal_to_quantized
  rw [if_neg (by push_neg; exact ⟨h0, hn⟩), if_neg (by push_neg; exact h1)]

lemma ntq_nearest (normal : ℚ) (n : Nat) (h0 : 0 < normal) (h1 : normal < 1)
    (hn : n ≠ 0) :
    |((param_normal_to_quantized normal n : ℚ)) - normal * n| ≤ 1 / 2 := by
  have hnq : (0 : ℚ) < n := by exact_mod_cast Nat.pos_of_ne_zero hn
  have hx : (0 : ℚ) < normal * n := mul_pos h0 hnq
  rw [ntq_interior normal n h0 h1 hn]
  unfold roundHalfAway
  rw [if_pos (le_of_lt hx)]
  have hfl : (0 : ℤ) ≤ ⌊normal * (n : ℚ) + 1 / 2⌋ :=
    Int.le_floor.mpr (by push_cast; linarith)
  have hcast : ((⌊normal * (n : ℚ) + 1 / 2⌋.toNat : ℕ) : ℚ) =
      ((⌊normal * (n : ℚ) + 1 / 2⌋ : ℤ) : ℚ) := by
    exact_mod_cast Int.toNat_of_nonneg hfl
  rw [hcast]
  have hle : ((⌊normal * (n : ℚ) + 1 / 2⌋ : ℤ) : ℚ) ≤ normal * n + 1 / 2 :=
    Int.floor_le _
  have hlt : normal * (n : ℚ) + 1 / 2 < ((⌊normal * (n : ℚ) + 1 / 2⌋ : ℤ) : ℚ) + 1 :=
    Int.lt_floor_add_one _
  rw [abs_le]
  constructor <;> linarith

/-- C1: for every instance of `VirtualSliderInner` (any construction
arguments, even out-of-range ones) and every sequence of public operations,
the committed normal value returned by `normal_value()` lies in `[0, 1]`
after each operation returns. -/
theorem normal_value_in_unit_range_after_any_ops (pid : Nat) (nv dn : ℚ)
    (steps : Option Nat) (cfg : VirtualSliderConfig) (dv sv : Bool)
    (ops : List SliderOp) :
    0 ≤ (List.foldl applyOp (VirtualSliderInner.new pid nv dn steps cfg dv sv) ops).normal_value ∧
      (List.foldl applyOp (VirtualSliderInner.new pid nv dn steps cfg dv sv) ops).normal_value ≤ 1 := by
  have h := foldl_applyOp_inv ops _ (new_inv pid nv dn steps cfg dv sv)
  exact ⟨h.1, h.2.1⟩

/-- C7: `param_normal_to_quantized` returns `0` when the input is `≤ 0` or
the step count is `0`, returns `num_steps` when the input is `≥ 1`, and
otherwise rounds `normal * num_steps` to the nearest integer (ties away from
zero, so the result is within distance `1/2` of `normal * num_steps`); in
particular it maps `0` to `0` and `1` to `num_steps`. -/
theorem param_normal_to_quantized_boundary_and_rounding :
    (∀ (normal : ℚ) (n : Nat), normal ≤ 0 → param_normal_to_quantized normal n = 0) ∧
    (∀ normal : ℚ, param_normal_to_quantized normal 0 = 0) ∧
    (∀ (normal : ℚ) (n : Nat), 1 ≤ normal → param_normal_to_quantized normal n = n) ∧
    (∀ (normal : ℚ) (n : Nat), 0 < normal → normal < 1 → n ≠ 0 →
      param_normal_to_quantized normal n = (roundHalfAway (normal * n)).toNat) ∧
    (∀ (normal : ℚ) (n : Nat), 0 < normal → normal < 1 → n ≠ 0 →
      |((param_normal_to_quantized normal n : ℚ)) - normal * n| ≤ 1 / 2) ∧
    (∀ n : Nat, param_normal_to_quantized 0 n = 0) ∧
    (∀ n : Nat, 0 < n → param_normal_to_quantized 1 n = n) :=
  ⟨fun normal n h => ntq_of_nonpos normal n h,
   fun normal => ntq_zero_steps normal,
   fun normal n h => ntq_of_one_le normal n h,
   fun normal n h0 h1 hn => ntq_interior normal n h0 h1 hn,
   fun normal n h0 h1 hn => ntq_nearest normal n h0 h1 hn,
   fun n => ntq_of_nonpos 0 n le_rfl,
   fun n _ => ntq_of_one_le 1 n le_rfl⟩

/-- Witness for C7 at concrete inputs: `normal_to_quantized(0, 5) = 0`,
`normal_to_quantized(1, 5) = 5`, and `normal_to_quantized(1/2, 3)` is within
`1/2` of `3/2`. -/
theorem param_normal_to_quantized_boundary_and_rounding_witness :
    param_normal_to_quantized 0 5 = 0 ∧ param_normal_to_quantized 1 5 = 5 ∧
      |((param_normal_to_quantized (1 / 2) 3 : ℚ)) - (1 / 2) * 3| ≤ 1 / 2 :=
  ⟨param_normal_to_quantized_boundary_and_rounding.2.2.2.2.2.1 5,
   param_normal_to_quantized_boundary_and_rounding.2.2.2.2.2.2 5 (by norm_num),
   param_normal_to_quantized_boundary_and_rounding.2.2.2.2.1 (1 / 2) 3
     (by norm_num) (by norm_num) (by norm_num)⟩

/-- C8: snapping is idempotent — `param_snap_normal (param_snap_normal v n) n`
equals `param_snap_normal v n` (proved for all `v`, in particular all
`v ∈ [0, 1]`, and all `n`). -/
theorem param_snap_normal_idempotent (v : ℚ) (n : Nat) :
    param_snap_normal (param_snap_normal v n) n = param_snap_normal v n := by
  unfold param_snap_normal
  rw [param_normal_to_quantized_of_quantized]
  by_cases h1 : param_normal_to_quantized v n = 0 ∨ n = 0
  · rw [if_pos h1]
    rcases h1 with h | h
    · rw [h]
    · rw [h, qtn_zero_steps, qtn_zero_steps]
  · rw [if_neg h1]
    push_neg at h1
    by_cases h2 : n ≤ param_normal_to_quantized v n
    · rw [if_pos h2, qtn_of_ge _ _ h1.2 le_rfl, qtn_of_ge _ _ h1.2 h2]
    · rw [if_neg h2]

/-- A concrete configuration used for witnesses and counterexamples:
drag scalar `1/100`, scroll wheel enabled, no fine-adjustment modifier,
pointer locking enabled. -/
def cfgTest : VirtualSliderConfig :=
  { drag_scalar := 1 / 100
    scroll_wheel_scalar := 1 / 100
    scroll_wheel_points_per_line := 24
    fine_adjustment_scalar := 1 / 50
    use_scroll_wheel := true
    fine_adjustment_modifier := none
    open_text_entry_modifier := none
    open_text_entry_on_middle_click := true
    disable_pointer_locking := false }

/-- A concrete continuous slider with no active gesture. -/
def sIdleW : VirtualSliderInner :=
  VirtualSliderInner.new 3 (1 / 2) 0 none cfgTest false false

/-- A concrete continuous slider with an active `Dragging` gesture. -/
def sGestureW : VirtualSliderInner :=
  ((VirtualSliderInner.new 7 0 0 none cfgTest false false).begin_drag_gesture
    { x := 1, y := 2 }).2

/-- C4: `set_normal_value` cancels any active gesture unconditionally, snaps
the value if stepped (clamps otherwise), resets the continuous gesture
position to the new committed value, and returns a `GestureFinished`
notification exactly when a gesture was active or the committed value
changed. -/
theorem set_normal_value_cancels_and_snaps (s : VirtualSliderInner) (v : ℚ) :
    (s.set_normal_value v).2.current_gesture = none ∧
    (s.set_normal_value v).2.normal_value = s.snap_normal v ∧
    (s.set_normal_value v).2.continuous_gesture_normal = s.snap_normal v ∧
    (s.set_normal_value v).1 =
      (if s.current_gesture.isSome || decide (s.normal_value ≠ s.snap_normal v) then
        some { param_id := s.param_id
               normal_value := s.snap_normal v
               stepped_value := Option.map
                 (fun st => param_normal_to_quantized v st.num_steps) s.stepped_state
               gesture_state := GestureState.GestureFinished }
      else none) := by
  unfold VirtualSliderInner.set_normal_value VirtualSliderInner.snap_normal
  unfold param_snap_normal
  cases hss : s.stepped_state with
  | some st => exact ⟨rfl, rfl, rfl, rfl⟩
  | none => exact ⟨rfl, rfl, rfl, rfl⟩

/-- C9: while any gesture is active, `begin_drag_gesture` and
`begin_scroll_wheel_gesture` return no notification and leave the state
(including the captured start position and start value) unchanged. -/
theorem begin_while_gesture_active_is_noop (s : VirtualSliderInner)
    (g : BeginGestureType) (h : s.current_gesture = some g) :
    (∀ p : Point, s.begin_drag_gesture p = (none, s)) ∧
      s.begin_scroll_wheel_gesture = (none, s) := by
  constructor
  · intro p
    unfold VirtualSliderInner.begin_drag_gesture
    rw [h]
  · unfold VirtualSliderInner.begin_scroll_wheel_gesture
    rw [h]

/-- Witness for C9: on a concrete slider with an in-progress drag gesture,
both begin methods return nothing and change nothing. -/
theorem begin_while_gesture_active_is_noop_witness :
    sGestureW.begin_drag_gesture { x := 5, y := 5 } = (none, sGestureW) ∧
      sGestureW.begin_scroll_wheel_gesture = (none, sGestureW) :=
  ⟨(begin_while_gesture_active_is_noop sGestureW
      (BeginGestureType.Dragging { x := 1, y := 2 } (clamp01 0)) rfl).1
      { x := 5, y := 5 },
   (begin_while_gesture_active_is_noop sGestureW
      (BeginGestureType.Dragging { x := 1, y := 2 } (clamp01 0)) rfl).2⟩

/-- C5 (amended): with no active gesture, `begin_drag_gesture` opens a
`Dragging` gesture capturing the pointer start position and the current
committed value and returns a `GestureStarted` notification carrying the
current value; every other field — in particular the continuous gesture
position — is left unchanged (it is not reset). -/
theorem begin_drag_gesture_from_idle (s : VirtualSliderInner) (p : Point)
    (h : s.current_gesture = none) :
    s.begin_drag_gesture p =
      (some { param_id := s.param_id
              normal_value := s.normal_value
              stepped_value := s.stepped_value
              gesture_state := GestureState.GestureStarted },
       { s with current_gesture := some (BeginGestureType.Dragging p s.normal_value) }) := by
  unfold VirtualSliderInner.begin_drag_gesture
  rw [h]

/-- Witness for C5 (amended) on a concrete idle slider. -/
theorem begin_drag_gesture_from_idle_witness :
    sIdleW.begin_drag_gesture { x := 4, y := 4 } =
      (some { param_id := sIdleW.param_id
              normal_value := sIdleW.normal_value
              stepped_value := sIdleW.stepped_value
              gesture_state := GestureState.GestureStarted },
       { sIdleW with current_gesture := some (BeginGestureType.Dragging { x := 4, y := 4 } sIdleW.normal_value) }) :=
  begin_drag_gesture_from_idle sIdleW { x := 4, y := 4 } rfl

/-- C3 (amended): with no active gesture, `handle_drag` is a defined no-op:
it returns no notification and leaves the entire state unchanged.
(`handle_scroll_wheel`, by contrast, does not require an active gesture —
see the counterexample.) -/
theorem handle_drag_without_gesture_is_noop (s : VirtualSliderInner)
    (p : Point) (pd : Option Point) (m : Modifiers)
    (h : s.current_gesture = none) : s.handle_drag p pd m = (none, s) := by
  unfold VirtualSliderInner.handle_drag
  rw [h]

/-- Witness for C3 (amended) on a concrete idle slider. -/
theorem handle_drag_without_gesture_is_noop_witness :
    sIdleW.handle_drag { x := 9, y := 9 } (some { x := 1, y := 1 }) 0 =
      (none, sIdleW) :=
  handle_drag_without_gesture_is_noop sIdleW { x := 9, y := 9 }
    (some { x := 1, y := 1 }) 0 rfl

/-- C6: with scroll enabled, `handle_scroll_wheel` converts the wheel delta
to drag-axis points (points pass through; lines multiply by the configured
points-per-line factor; pages are ignored — no notification and no state
change); a zero axis delta returns nothing; otherwise the axis delta is
scaled by `drag_scalar` (further by the fine-adjustment scalar when the fine
guard holds) and added to the continuous gesture position. -/
theorem handle_scroll_wheel_conversion (s : VirtualSliderInner)
    (h : s.config.use_scroll_wheel = true) :
    (∀ (v : Vector2) (m : Modifiers),
      s.handle_scroll_wheel (WheelDeltaType.Pages v) m = (none, s)) ∧
    (∀ (l : Vector2) (m : Modifiers),
      s.handle_scroll_wheel (WheelDeltaType.Lines l) m =
        s.handle_scroll_wheel (WheelDeltaType.Points
          { x := l.x * s.config.scroll_wheel_points_per_line
            y := l.y * s.config.scroll_wheel_points_per_line }) m) ∧
    (∀ (p : Vector2) (m : Modifiers),
      (if s.drag_vertically then p.y else p.x) = 0 →
        s.handle_scroll_wheel (WheelDeltaType.Points p) m = (none, s)) ∧
    (∀ (p : Vector2) (m : Modifiers),
      (if s.drag_vertically then p.y else p.x) ≠ 0 →
        s.handle_scroll_wheel (WheelDeltaType.Points p) m =
          s.set_new_gesture_normal (s.continuous_gesture_normal +
            (if fineGuard s.config m then
              (if s.drag_vertically then p.y else p.x) * s.config.drag_scalar *
                s.config.fine_adjustment_scalar
            else (if s.drag_vertically then p.y else p.x) * s.config.drag_scalar))) := by
  refine ⟨?_, ?_, ?_, ?_⟩
  · intro v m
    simp [VirtualSliderInner.handle_scroll_wheel, h, ite_self]
  · intro l m
    rfl
  · intro p m hz
    simp only [VirtualSliderInner.handle_scroll_wheel, h]
    simp only [Bool.not_true, Bool.false_eq_true, if_false]
    rw [if_pos hz]
  · intro p m hz
    simp only [VirtualSliderInner.handle_scroll_wheel, h]
    simp only [Bool.not_true, Bool.false_eq_true, if_false]
    rw [if_neg hz]

/-- Witness for C6: on a concrete idle slider with scroll enabled, a Pages
delta and a zero-axis Points delta both produce no notification and no state
change. -/
theorem handle_scroll_wheel_conversion_witness :
    sIdleW.handle_scroll_wheel (WheelDeltaType.Pages { x := 3, y := 4 }) 0 =
        (none, sIdleW) ∧
      sIdleW.handle_scroll_wheel (WheelDeltaType.Points { x := 0, y := 7 }) 0 =
        (none, sIdleW) :=
  ⟨(handle_scroll_wheel_conversion sIdleW rfl).1 { x := 3, y := 4 } 0,
   (handle_scroll_wheel_conversion sIdleW rfl).2.2.1 { x := 0, y := 7 } 0 rfl⟩

/-- C10: in both `handle_drag` and `handle_scroll_wheel`, the fine-adjustment
scalar is applied exactly when the incoming modifier bitset equals the
configured fine-adjustment modifier (and one is configured): the behaviour of
both handlers depends on the modifiers only through this guard, and a
superset such as SHIFT+CONTROL does not match a configured SHIFT. -/
theorem fine_adjustment_exact_modifier_match :
    (∀ (cfg : VirtualSliderConfig) (m mods : Modifiers),
      cfg.fine_adjustment_modifier = some m →
        (fineGuard cfg mods = true ↔ mods = m)) ∧
    (∀ (cfg : VirtualSliderConfig) (mods : Modifiers),
      cfg.fine_adjustment_modifier = none → fineGuard cfg mods = false) ∧
    (∀ (s : VirtualSliderInner) (p : Point) (pd : Option Point) (mods mods2 : Modifiers),
      fineGuard s.config mods = fineGuard s.config mods2 →
        s.handle_drag p pd mods = s.handle_drag p pd mods2) ∧
    (∀ (s : VirtualSliderInner) (d : WheelDeltaType) (mods mods2 : Modifiers),
      fineGuard s.config mods = fineGuard s.config mods2 →
        s.handle_scroll_wheel d mods = s.handle_scroll_wheel d mods2) ∧
    (∀ cfg : VirtualSliderConfig,
      cfg.fine_adjustment_modifier = some Modifiers.SHIFT →
        fineGuard cfg (Modifiers.SHIFT ||| Modifiers.CONTROL) = false) := by
  refine ⟨?_, ?_, ?_, ?_, ?_⟩
  · intro cfg m mods hc
    unfold fineGuard
    rw [hc]
    exact beq_iff_eq
  · intro cfg mods hc
    unfold fineGuard
    rw [hc]
  · intro s p pd mods mods2 hg
    simp only [VirtualSliderInner.handle_drag, hg]
  · intro s d mods mods2 hg
    simp only [VirtualSliderInner.handle_scroll_wheel, hg]
  · intro cfg hc
    unfold fineGuard
    rw [hc]
    decide

/-- A configuration whose fine-adjustment modifier is SHIFT. -/
def cfgShift : VirtualSliderConfig :=
  { cfgTest with fine_adjustment_modifier := some Modifiers.SHIFT }

/-- Witness for C10: with SHIFT configured, SHIFT alone triggers the fine
guard and SHIFT+CONTROL does not. -/
theorem fine_adjustment_exact_modifier_match_witness :
    fineGuard cfgShift Modifiers.SHIFT = true ∧
      fineGuard cfgShift (Modifiers.SHIFT ||| Modifiers.CONTROL) = false :=
  ⟨(fine_adjustment_exact_modifier_match.1 cfgShift Modifiers.SHIFT
      Modifiers.SHIFT rfl).mpr rfl,
   fine_adjustment_exact_modifier_match.2.2.2.2 cfgShift rfl⟩

lemma clamp01_of_mem (x : ℚ) (h0 : 0 ≤ x) (h1 : x ≤ 1) : clamp01 x = x := by
  unfold clamp01
  rw [min_eq_left h1, max_eq_right h0]

lemma clamp01_zero : clamp01 (0 : ℚ) = 0 := clamp01_of_mem 0 le_rfl (by norm_num)

lemma clamp01_one : clamp01 (1 : ℚ) = 1 := clamp01_of_mem 1 (by norm_num) le_rfl

lemma clamp01_half : clamp01 ((1 : ℚ) / 2) = 1 / 2 :=
  clamp01_of_mem (1 / 2) (by norm_num) (by norm_num)

/-- A concrete continuous slider constructed at value `0` with default `0`. -/
def sC3 : VirtualSliderInner := VirtualSliderInner.new 0 0 0 none cfgTest false false

lemma sC3_eq : sC3 =
    { param_id := 0, config := cfgTest, drag_vertically := false
      scroll_vertically := false, normal_value := 0, default_normal := 0
      continuous_gesture_normal := 0, stepped_state := none
      current_gesture := none } := by
  unfold sC3 VirtualSliderInner.new
  rw [clamp01_zero]

/-- Counterexample to C3 as stated: on a slider with no active gesture and
scroll enabled, `handle_scroll_wheel` with a 50-point horizontal delta at
drag scalar `1/100` is not a no-op — it returns a `Gesturing` notification
and moves the committed value from `0` to `1/2`. -/
theorem handle_scroll_wheel_without_gesture_changes_state :
    sC3.current_gesture = none ∧
      sC3.handle_scroll_wheel (WheelDeltaType.Points { x := 50, y := 0 }) 0 =
        (some { param_id := 0, normal_value := 1 / 2, stepped_value := none
                gesture_state := GestureState.Gesturing },
         { param_id := 0, config := cfgTest, drag_vertically := false
           scroll_vertically := false, normal_value := 1 / 2, default_normal := 0
           continuous_gesture_normal := 1 / 2, stepped_state := none
           current_gesture := none }) ∧
      sC3.normal_value = 0 ∧ ((1 : ℚ) / 2) ≠ 0 := by
  refine ⟨by rw [sC3_eq], ?_, by rw [sC3_eq], by norm_num⟩
  rw [sC3_eq]
  norm_num [VirtualSliderInner.handle_scroll_wheel, fineGuard, cfgTest,
    VirtualSliderInner.set_new_gesture_normal, VirtualSliderInner.stepped_value,
    clamp01_half]

/-- A concrete stepped slider with 2 steps, committed at step 0. -/
def sC2a : VirtualSliderInner :=
  VirtualSliderInner.new 0 0 0 (some 2) cfgTest false false

lemma sC2a_eq : sC2a =
    { param_id := 0, config := cfgTest, drag_vertically := false
      scroll_vertically := false, normal_value := 0, default_normal := 0
      continuous_gesture_normal := 0
      stepped_state := some { value := 0, num_steps := 2 }
      current_gesture := none } := by
  unfold sC2a VirtualSliderInner.new param_snap_normal
  dsimp only
  rw [ntq_of_nonpos 0 2 le_rfl, qtn_zero_value]

/-- The stepped slider after `begin_scroll_wheel_gesture`. -/
def sC2b : VirtualSliderInner := (sC2a.begin_scroll_wheel_gesture).2

lemma sC2b_eq : sC2b =
    { param_id := 0, config := cfgTest, drag_vertically := false
      scroll_vertically := false, normal_value := 0, default_normal := 0
      continuous_gesture_normal := 0
      stepped_state := some { value := 0, num_steps := 2 }
      current_gesture := some BeginGestureType.ScrollWheel } := by
  unfold sC2b
  rw [sC2a_eq]
  rfl

lemma sC2_scroll_eq :
    sC2b.handle_scroll_wheel (WheelDeltaType.Points { x := 100, y := 0 }) 0 =
      (some { param_id := 0, normal_value := 0, stepped_value := some 2
              gesture_state := GestureState.Gesturing },
       { param_id := 0, config := cfgTest, drag_vertically := false
         scroll_vertically := false, normal_value := 0, default_normal := 0
         continuous_gesture_normal := 1
         stepped_state := some { value := 2, num_steps := 2 }
         current_gesture := some BeginGestureType.ScrollWheel }) := by
  rw [sC2b_eq]
  norm_num [VirtualSliderInner.handle_scroll_wheel, fineGuard, cfgTest,
    VirtualSliderInner.set_new_gesture_normal, VirtualSliderInner.stepped_value,
    clamp01_one, show param_normal_to_quantized 1 2 = 2 from ntq_of_one_le 1 2 le_rfl]

/-- The stepped slider after the scroll input that moved it to step 2. -/
def sC2c : VirtualSliderInner :=
  (sC2b.handle_scroll_wheel (WheelDeltaType.Points { x := 100, y := 0 }) 0).2

/-- C2 is violated by the code: after a scroll gesture moves the stepped
slider from step 0 to step 2 (of 2), the committed step index is 2 whose
quantization is `1`, yet `normal_value()` still returns the stale `0` — the
source's `set_new_gesture_normal` never recomputes the `normal_value` field
in the stepped branch, and the emitted notification carries the stale normal
alongside the fresh stepped value. -/
theorem stepped_normal_value_left_stale :
    sC2c.stepped_value = some 2 ∧
      param_quantized_to_normal 2 2 = 1 ∧
      sC2c.normal_value = 0 ∧
      sC2c.normal_value ≠ param_quantized_to_normal 2 2 ∧
      (sC2b.handle_scroll_wheel (WheelDeltaType.Points { x := 100, y := 0 }) 0).1 =
        some { param_id := 0, normal_value := 0, stepped_value := some 2
               gesture_state := GestureState.Gesturing } := by
  have hc : sC2c =
      { param_id := 0, config := cfgTest, drag_vertically := false
        scroll_vertically := false, normal_value := 0, default_normal := 0
        continuous_gesture_normal := 1
        stepped_state := some { value := 2, num_steps := 2 }
        current_gesture := some BeginGestureType.ScrollWheel } := by
    unfold sC2c
    rw [sC2_scroll_eq]
  have hq : param_quantized_to_normal 2 2 = 1 := qtn_of_ge 2 2 (by norm_num) le_rfl
  refine ⟨by rw [hc]; rfl, hq, by rw [hc], ?_, by rw [sC2_scroll_eq]⟩
  rw [hc, hq]
  norm_num

/-- A concrete continuous slider at value `1/2` with default `0`. -/
def sC5a : VirtualSliderInner :=
  VirtualSliderInner.new 0 (1 / 2) 0 none cfgTest false false

lemma sC5a_eq : sC5a =
    { param_id := 0, config := cfgTest, drag_vertically := false
      scroll_vertically := false, normal_value := 1 / 2, default_normal := 0
      continuous_gesture_normal := 1 / 2, stepped_state := none
      current_gesture := none } := by
  unfold sC5a VirtualSliderInner.new
  rw [clamp01_half, clamp01_zero]

/-- The slider of `sC5a` after `reset_to_default`: the committed value is `0`
but the continuous gesture position is still `1/2`. -/
def sC5b : VirtualSliderInner := (sC5a.reset_to_default).2

lemma sC5b_eq : sC5b =
    { param_id := 0, config := cfgTest, drag_vertically := false
      scroll_vertically := false, normal_value := 0, default_normal := 0
      continuous_gesture_normal := 1 / 2, stepped_state := none
      current_gesture := none } := by
  unfold sC5b
  rw [sC5a_eq]
  unfold VirtualSliderInner.reset_to_default
  norm_num

/-- Counterexample to C5 as stated: on a gesture-free slider whose committed
value is `0` and whose continuous gesture position is `1/2` (reached via
`reset_to_default`), `begin_drag_gesture` leaves the continuous gesture
position at `1/2` instead of resetting it to the committed value `0`. -/
theorem begin_drag_gesture_leaves_continuous_position :
    sC5b.current_gesture = none ∧ sC5b.normal_value = 0 ∧
      sC5b.continuous_gesture_normal = 1 / 2 ∧
      (sC5b.begin_drag_gesture { x := 0, y := 0 }).2.normal_value = 0 ∧
      (sC5b.begin_drag_gesture { x := 0, y := 0 }).2.continuous_gesture_normal = 1 / 2 ∧
      ((1 : ℚ) / 2) ≠ 0 := by
  refine ⟨by rw [sC5b_eq], by rw [sC5b_eq], by rw [sC5b_eq], ?_, ?_, by norm_num⟩
  · rw [sC5b_eq]
    rfl
  · rw [sC5b_eq]
    rfl
